import Mathlib

/-!
Verification of the LEONA assistant core against its specification.

The development shallowly embeds the Python sources of the repository:

* `backend/core/agent_orchestrator.py` — intent classification and dispatch
  (`AgentOrchestrator.process_input`, `_analyze_intent`, `_generate_suggestions`);
* `backend/core/memory_manager.py` — the task / preference store
  (`get_pending_tasks`, `update_preference`, `get_preference`);
* `backend/agents/scheduler_agent.py` — natural-language time parsing,
  reminders, the background reminder checker and the conflict check;
* `backend/agents/automation_agent.py` — workflow creation and the
  scheduled execution path.

Conventions of the embedding:

* Python `datetime` values are naive timestamps with microsecond resolution;
  they are embedded as `Nat` microsecond counts.  `timedelta(days=1)` is
  addition of `usPerDay`, `datetime.replace(hour, minute, second)` is the
  arithmetic surgery `replaceHMS` (which, like the Python original, keeps the
  microsecond component).  ISO-8601 serialisation (`isoformat` /
  `fromisoformat`) is order-preserving and injective on such timestamps, so
  the embedding identifies a stored due date with its timestamp.
* The external language model is an oracle `llm : String → String`; Python
  `json.loads` is an oracle `jsonLoads : String → Option Json` where `none`
  stands for "raised an exception".
* Raised Python exceptions are values of `PyError`; functions that can raise
  return `Except PyError _` (or a state paired with `Option PyError` where
  the mutation preceding the raise is observable).
-/

/-- Values produced by Python `json.loads`: the JSON data model. -/
inductive Json where
  | null
  | bool (b : Bool)
  | num (n : Int)
  | str (s : String)
  | arr (elems : List Json)
  | obj (fields : List (String × Json))

/-- Python exceptions that the embedded code can raise. -/
inductive PyError where
  | keyError (key : String)
  | typeError (msg : String)
  | valueError (msg : String)
  deriving DecidableEq

/-- Python truthiness (`if x:`) of a JSON value. -/
def truthy : Json → Bool
  | .null => false
  | .bool b => b
  | .num n => n != 0
  | .str s => s != ""
  | .arr elems => !elems.isEmpty
  | .obj fields => !fields.isEmpty

/-- First-match association lookup on the fields of a JSON object. -/
def lookupField : List (String × Json) → String → Option Json
  | [], _ => none
  | (k', v) :: rest, k => if k' = k then some v else lookupField rest k

/-- Python `d.get(k)` on a JSON value known to be a dict: `none` when the key
is absent or the value is not a dict. -/
def jsonGet (j : Json) (k : String) : Option Json :=
  match j with
  | .obj fields => lookupField fields k
  | _ => none

/-- Python `j[k]` subscription with a string key: `KeyError` on a dict
without the key, `TypeError` on any non-dict value. -/
def pyIndex (j : Json) (k : String) : Except PyError Json :=
  match j with
  | .obj fields =>
    match lookupField fields k with
    | some v => .ok v
    | none => .error (.keyError k)
  | _ => .error (.typeError "object is not subscriptable with a string key")

/-- The classification prompt built by `AgentOrchestrator._analyze_intent`
(the f-string at agent_orchestrator.py lines 60-69). -/
def intentPrompt (userInput : String) : String :=
  "Analyze this request and determine which agent should handle it:\n        User: "
    ++ userInput
    ++ "\n        \n        Available agents:\n        - scheduler: calendar, reminders, scheduling\n        - file: file operations, document management\n        - system: system commands, app launching\n        - web: web browsing, information gathering\n        \n        Respond with the agent name and any parameters in JSON format."

/-- The sentinel returned by `_analyze_intent` when `json.loads` raises. -/
def sentinelIntent : Json :=
  .obj [("primary_agent", .null), ("parameters", .obj [])]

/-- `AgentOrchestrator._analyze_intent` (agent_orchestrator.py lines 57-78):
ask the model for a classification, parse it as JSON, and on parse failure
return the sentinel instead of raising. -/
def analyzeIntent (llm : String → String) (jsonLoads : String → Option Json)
    (userInput : String) : Json :=
  match jsonLoads (llm (intentPrompt userInput)) with
  | some j => j
  | none => sentinelIntent

/-- The suggestion prompt built by `_generate_suggestions`
(agent_orchestrator.py lines 86-92). -/
def suggestionPrompt (userInput result context : String) : String :=
  "Based on this interaction:\n        User: " ++ userInput
    ++ "\n        Response: " ++ result
    ++ "\n        Context: " ++ context
    ++ "\n        \n        As LEONA, provide a brief, helpful proactive suggestion if relevant.\n        Be elegant and concise. Return empty string if no suggestion needed."

/-- The signature step of `process_input` (agent_orchestrator.py lines 50-53):
add a final period when missing, then append the fixed signature text. -/
def signatureOf (response : String) : String :=
  (if response.endsWith "." then response else response ++ ".") ++ " Always one call away."

/-- An agent's `execute(user_input, parameters)` method, as a function. -/
abbrev AgentExec := String → Json → String

/-- First-match lookup in the orchestrator's agent registry. -/
def lookupAgent : List (String × AgentExec) → String → Option AgentExec
  | [], _ => none
  | (k', v) :: rest, k => if k' = k then some v else lookupAgent rest k

/-- Python `self.agents.get(x)` where `x` is an arbitrary JSON value: the
registry keys are strings, so any non-string subscript matches nothing. -/
def agentsGet (agents : List (String × AgentExec)) : Json → Option AgentExec
  | .str s => lookupAgent agents s
  | _ => none

/-- `AgentOrchestrator.process_input` (agent_orchestrator.py lines 27-55).
`memCtx` is the `MemoryManager.get_context` database read used by
`_generate_suggestions`, treated as an oracle. -/
def processInput (agents : List (String × AgentExec)) (llm : String → String)
    (jsonLoads : String → Option Json) (memCtx : String → String)
    (userInput : String) : Except PyError String :=
  let intent := analyzeIntent llm jsonLoads userInput
  match pyIndex intent "primary_agent" with
  | .error e => .error e
  | .ok pa =>
    if truthy pa then
      match agentsGet agents pa with
      | some exec =>
        match pyIndex intent "parameters" with
        | .error e => .error e
        | .ok params =>
          let result := exec userInput params
          let suggestion := (llm (suggestionPrompt userInput result (memCtx userInput))).trim
          .ok (if suggestion = "" then result
               else result ++ "\n\n💡 By the way, " ++ suggestion)
      | none => .ok (signatureOf (llm userInput))
    else .ok (signatureOf (llm userInput))

/-- A language-model stub whose reply is valid JSON that lacks the
`primary_agent` key. -/
def c10Llm : String → String := fun _ => "\x7b\"agent\": \"scheduler\"\x7d"

/-- `json.loads` on `c10Llm`'s reply: the object with the single key
`agent`. -/
def c10Loads : String → Option Json := fun _ => some (.obj [("agent", .str "scheduler")])

theorem jsonGet_eq_some_pyIndex {j : Json} {k : String} {v : Json}
    (h : jsonGet j k = some v) : pyIndex j k = .ok v := by
  cases j <;> simp [jsonGet] at h <;> simp [pyIndex, h]

/-- Claim C1: whenever the language model's classification reply is not valid
JSON (the `jsonLoads` oracle yields `none`), `_analyze_intent` returns the
sentinel `\x7bprimary_agent: null, parameters: \x7b\x7d\x7d` — and, being a total
function of the embedding, it raises no exception. -/
theorem C1_analyze_intent_parse_failure_sentinel
    (llm : String → String) (jsonLoads : String → Option Json) (u : String)
    (h : jsonLoads (llm (intentPrompt u)) = none) :
    analyzeIntent llm jsonLoads u = sentinelIntent ∧
    jsonGet (analyzeIntent llm jsonLoads u) "primary_agent" = some Json.null ∧
    jsonGet (analyzeIntent llm jsonLoads u) "parameters" = some (Json.obj []) := by
  simp [analyzeIntent, h, sentinelIntent, jsonGet, lookupField]

/-- Concrete instance of C1: a model that answers prose which fails JSON
parsing, on the input `hello`. -/
theorem C1_analyze_intent_parse_failure_sentinel_witness :
    (fun _ : String => (none : Option Json))
        ((fun _ : String => "I would route this to the scheduler.") (intentPrompt "hello")) = none ∧
    (analyzeIntent (fun _ => "I would route this to the scheduler.") (fun _ => none) "hello"
        = sentinelIntent ∧
      jsonGet (analyzeIntent (fun _ => "I would route this to the scheduler.") (fun _ => none) "hello")
          "primary_agent" = some Json.null ∧
      jsonGet (analyzeIntent (fun _ => "I would route this to the scheduler.") (fun _ => none) "hello")
          "parameters" = some (Json.obj [])) :=
  ⟨rfl, C1_analyze_intent_parse_failure_sentinel _ _ _ rfl⟩

/-- Claim C2: when classification yields `primary_agent = null`, `process_input`
never consults the agent registry (the result is the same for every registry),
calls the model directly on the raw user text, and returns that text with the
signature suffix appended deterministically (the fixed signature text
` Always one call away.`, preceded by a period exactly when the model text does
not already end in one). -/
theorem C2_null_agent_conversational_fallback
    (agents : List (String × AgentExec)) (llm : String → String)
    (jsonLoads : String → Option Json) (memCtx : String → String) (u : String)
    (h : jsonGet (analyzeIntent llm jsonLoads u) "primary_agent" = some Json.null) :
    processInput agents llm jsonLoads memCtx u = .ok (signatureOf (llm u)) ∧
    (signatureOf (llm u) = llm u ++ " Always one call away." ∨
      signatureOf (llm u) = llm u ++ ". Always one call away.") := by
  constructor
  · simp [processInput, jsonGet_eq_some_pyIndex h, truthy]
  · by_cases hdot : (llm u).endsWith "."
    · exact Or.inl (by simp [signatureOf, hdot])
    · exact Or.inr (by simp [signatureOf, hdot, String.append_assoc])

/-- Concrete instance of C2: a classifier stub returning `primary_agent = null`
with a nonempty registry; the fallback reply is the model text plus the
signature. -/
theorem C2_null_agent_conversational_fallback_witness :
    jsonGet (analyzeIntent (fun _ => "hello there")
        (fun _ => some (.obj [("primary_agent", .null), ("parameters", .obj [])])) "hi")
        "primary_agent" = some Json.null ∧
    (processInput [("scheduler", fun _ _ => "scheduled")] (fun _ => "hello there")
        (fun _ => some (.obj [("primary_agent", .null), ("parameters", .obj [])]))
        (fun _ => "") "hi"
      = .ok (signatureOf ((fun _ : String => "hello there") "hi")) ∧
    (signatureOf ((fun _ : String => "hello there") "hi")
        = (fun _ : String => "hello there") "hi" ++ " Always one call away." ∨
      signatureOf ((fun _ : String => "hello there") "hi")
        = (fun _ : String => "hello there") "hi" ++ ". Always one call away.")) :=
  ⟨rfl, C2_null_agent_conversational_fallback _ _ _ _ _ rfl⟩

/-- Claim C10: `process_input` subscripts the classification result without
defaults, so a model reply that is valid JSON but lacks the `primary_agent`
key makes it raise `KeyError` to its caller instead of degrading to the
conversational fallback — for every registry, context oracle and input. -/
theorem C10_missing_primary_agent_keyerror
    (agents : List (String × AgentExec)) (memCtx : String → String) (u : String) :
    processInput agents c10Llm c10Loads memCtx u = .error (.keyError "primary_agent") := by
  simp [processInput, analyzeIntent, c10Loads, pyIndex, lookupField]

/-- A row of the `tasks` table of `memory_manager.py` (schema at lines
30-40).  Due dates are stored by the code as ISO-8601 strings; since ISO
serialisation is order-preserving and injective, the embedding keeps the
underlying timestamp, with `none` for SQL `NULL`. -/
structure TaskRow where
  id : Nat
  created_at : Nat
  due_date : Option Nat
  title : String
  description : Option String
  status : String
  priority : Int
  deriving DecidableEq

/-- SQLite `due_date ASC` ordering: `NULL` sorts first, non-null ISO strings
sort chronologically. -/
def dueLe : Option Nat → Option Nat → Prop
  | none, _ => True
  | some _, none => False
  | some a, some b => a ≤ b

instance : DecidableRel dueLe := fun a b =>
  match a, b with
  | none, _ => isTrue trivial
  | some _, none => isFalse (fun h => h)
  | some x, some y => inferInstanceAs (Decidable (x ≤ y))

/-- The `ORDER BY priority DESC, due_date ASC` ordering of
`MemoryManager.get_pending_tasks` (memory_manager.py line 118). -/
def taskLe (a b : TaskRow) : Prop :=
  b.priority < a.priority ∨ (a.priority = b.priority ∧ dueLe a.due_date b.due_date)

instance : DecidableRel taskLe := fun a b =>
  inferInstanceAs (Decidable (b.priority < a.priority ∨
    (a.priority = b.priority ∧ dueLe a.due_date b.due_date)))

theorem dueLe_total (a b : Option Nat) : dueLe a b ∨ dueLe b a := by
  cases a <;> cases b <;> simp [dueLe] <;> omega

theorem dueLe_trans {a b c : Option Nat} (h1 : dueLe a b) (h2 : dueLe b c) : dueLe a c := by
  cases a <;> cases b <;> cases c <;> simp_all [dueLe] <;> omega

instance : IsTotal TaskRow taskLe := by
  constructor
  intro a b
  rcases lt_trichotomy a.priority b.priority with h | h | h
  · exact Or.inr (Or.inl h)
  · rcases dueLe_total a.due_date b.due_date with hd | hd
    · exact Or.inl (Or.inr ⟨h, hd⟩)
    · exact Or.inr (Or.inr ⟨h.symm, hd⟩)
  · exact Or.inl (Or.inl h)

instance : IsTrans TaskRow taskLe := by
  constructor
  intro a b c hab hbc
  rcases hab with h1 | ⟨h1, hd1⟩ <;> rcases hbc with h2 | ⟨h2, hd2⟩
  · exact Or.inl (h2.trans h1)
  · exact Or.inl (h2 ▸ h1)
  · exact Or.inl (h1 ▸ h2)
  · exact Or.inr ⟨h1.trans h2, dueLe_trans hd1 hd2⟩

/-- `MemoryManager.get_pending_tasks` (memory_manager.py lines 114-132):
`SELECT * FROM tasks WHERE status = 'pending' ORDER BY priority DESC,
due_date ASC`.  The SQL engine's sort is embedded as an insertion sort over
the same ordering. -/
def getPendingTasks (tasks : List TaskRow) : List TaskRow :=
  (tasks.filter (fun t => t.status == "pending")).insertionSort taskLe

/-- Claim C5: for every stored set of tasks with priorities in 1..3 and
arbitrary due dates, `get_pending_tasks` returns exactly the tasks with
status `pending`, sorted by priority descending and, within equal priority,
by due date ascending (`taskLe`). -/
theorem C5_get_pending_tasks_sorted (tasks : List TaskRow)
    (hp : ∀ t ∈ tasks, t.priority = 1 ∨ t.priority = 2 ∨ t.priority = 3) :
    (∀ t ∈ getPendingTasks tasks, t.status = "pending") ∧
    (getPendingTasks tasks).Sorted taskLe ∧
    (getPendingTasks tasks).Perm (tasks.filter (fun t => t.status == "pending")) := by
  refine ⟨?_, List.sorted_insertionSort taskLe _, List.perm_insertionSort taskLe _⟩
  intro t ht
  have := (List.mem_insertionSort taskLe).1 ht
  have := List.mem_filter.1 this
  simpa using this.2

/-- Concrete instance of C5: three tasks with priorities 2, 1, 3 and one
non-pending task. -/
theorem C5_get_pending_tasks_sorted_witness :
    (∀ t ∈ [(⟨1, 0, some 50, "a", none, "pending", 2⟩ : TaskRow),
            ⟨2, 0, some 10, "b", none, "pending", 1⟩,
            ⟨3, 0, none, "c", none, "done", 3⟩,
            ⟨4, 0, some 20, "d", none, "pending", 2⟩],
        t.priority = 1 ∨ t.priority = 2 ∨ t.priority = 3) ∧
    ((∀ t ∈ getPendingTasks [(⟨1, 0, some 50, "a", none, "pending", 2⟩ : TaskRow),
            ⟨2, 0, some 10, "b", none, "pending", 1⟩,
            ⟨3, 0, none, "c", none, "done", 3⟩,
            ⟨4, 0, some 20, "d", none, "pending", 2⟩],
        t.status = "pending") ∧
      (getPendingTasks [(⟨1, 0, some 50, "a", none, "pending", 2⟩ : TaskRow),
            ⟨2, 0, some 10, "b", none, "pending", 1⟩,
            ⟨3, 0, none, "c", none, "done", 3⟩,
            ⟨4, 0, some 20, "d", none, "pending", 2⟩]).Sorted taskLe ∧
      (getPendingTasks [(⟨1, 0, some 50, "a", none, "pending", 2⟩ : TaskRow),
            ⟨2, 0, some 10, "b", none, "pending", 1⟩,
            ⟨3, 0, none, "c", none, "done", 3⟩,
            ⟨4, 0, some 20, "d", none, "pending", 2⟩]).Perm
        ([(⟨1, 0, some 50, "a", none, "pending", 2⟩ : TaskRow),
            ⟨2, 0, some 10, "b", none, "pending", 1⟩,
            ⟨3, 0, none, "c", none, "done", 3⟩,
            ⟨4, 0, some 20, "d", none, "pending", 2⟩].filter
              (fun t => t.status == "pending"))) :=
  ⟨by decide, C5_get_pending_tasks_sorted _ (by decide)⟩

/-- The `preferences` table of `memory_manager.py` (`key TEXT PRIMARY KEY,
value TEXT`): an association list keyed by the string key.  `json.dumps` /
`json.loads` round the stored value through TEXT and are mutually inverse on
the JSON domain, so the embedding stores the JSON value itself. -/
abbrev Prefs := List (String × Json)

/-- `MemoryManager.update_preference` (memory_manager.py lines 134-141):
`INSERT OR REPLACE INTO preferences` — replace the row for the key when
present, insert otherwise. -/
def updatePreference : Prefs → String → Json → Prefs
  | [], k, v => [(k, v)]
  | (k', v') :: rest, k, v =>
    if k' = k then (k, v) :: rest else (k', v') :: updatePreference rest k v

/-- `MemoryManager.get_preference` (memory_manager.py lines 143-153):
`SELECT value FROM preferences WHERE key = ?`, `None` when no row. -/
def getPreference : Prefs → String → Option Json
  | [], _ => none
  | (k', v) :: rest, k => if k' = k then some v else getPreference rest k

/-- Claim C9: `update_preference` followed by `get_preference` on the same key
returns exactly the written value, whatever was stored before (last-write-wins
upsert); and `get_preference` of a never-written key returns `None`. -/
theorem C9_preference_last_write_wins (st : Prefs) (k : String) (v : Json) :
    getPreference (updatePreference st k v) k = some v ∧
    (∀ k₂, k₂ ∉ st.map Prod.fst → getPreference st k₂ = none) := by
  constructor
  · induction st with
    | nil => simp [updatePreference, getPreference]
    | cons hd rest ih =>
      obtain ⟨k', v'⟩ := hd
      by_cases hk : k' = k
      · simp [updatePreference, hk, getPreference]
      · simp [updatePreference, hk, getPreference, ih]
  · intro k₂ hk₂
    induction st with
    | nil => simp [getPreference]
    | cons hd rest ih =>
      obtain ⟨k', v'⟩ := hd
      simp only [List.map_cons, List.mem_cons, not_or] at hk₂
      have : k' ≠ k₂ := fun h => hk₂.1 h.symm
      simp [getPreference, this, ih hk₂.2]

/-- Microseconds per second: the resolution of a Python `datetime`. -/
def usPerSecond : Nat := 1000000

/-- Microseconds per minute (`timedelta(minutes=1)`). -/
def usPerMinute : Nat := 60 * usPerSecond

/-- Microseconds per hour (`timedelta(hours=1)`). -/
def usPerHour : Nat := 60 * usPerMinute

/-- Microseconds per day (`timedelta(days=1)`). -/
def usPerDay : Nat := 24 * usPerHour

/-- A reminder dict built by `SchedulerAgent._add_reminder`
(scheduler_agent.py lines 111-118). -/
structure Reminder where
  id : Nat
  title : String
  time : Nat
  priority : String
  created_at : Nat
  notified : Bool
  deriving DecidableEq

/-- One reminder's treatment by an iteration of
`SchedulerAgent._reminder_checker` (scheduler_agent.py lines 386-390):
`if not reminder['notified'] and reminder['time'] <= now:
reminder['notified'] = True`. -/
def reminderCheckOne (now : Nat) (r : Reminder) : Reminder :=
  if ¬r.notified ∧ r.time ≤ now then { r with notified := true } else r

/-- One full iteration of the background checker over the reminder list
(the `for reminder in self.reminders` loop). -/
def reminderCheckerStep (now : Nat) (rs : List Reminder) : List Reminder :=
  rs.map (reminderCheckOne now)

/-- Claim C4: under the checker, `notified` flips false→true only in an
iteration whose observed time is at or after the reminder's time, never flips
back, every other field is untouched, and a reminder that has fired is left
completely unchanged by any later iteration (so the flip happens at most
once). -/
theorem C4_reminder_notified_monotone (now : Nat) (r : Reminder) :
    ((reminderCheckOne now r).notified = (r.notified || decide (r.time ≤ now))) ∧
    ((reminderCheckOne now r).notified ≠ r.notified →
      r.notified = false ∧ (reminderCheckOne now r).notified = true ∧ r.time ≤ now) ∧
    ((reminderCheckOne now r).id = r.id ∧ (reminderCheckOne now r).title = r.title ∧
      (reminderCheckOne now r).time = r.time ∧
      (reminderCheckOne now r).priority = r.priority ∧
      (reminderCheckOne now r).created_at = r.created_at) ∧
    (r.notified = true → reminderCheckOne now r = r) ∧
    (∀ now₂, (reminderCheckOne now r).notified = true →
      reminderCheckOne now₂ (reminderCheckOne now r) = reminderCheckOne now r) ∧
    (reminderCheckerStep now [r] = [reminderCheckOne now r]) := by
  by_cases hn : r.notified
  · simp [reminderCheckOne, reminderCheckerStep, hn]
  · by_cases ht : r.time ≤ now
    · simp [reminderCheckOne, reminderCheckerStep, hn, ht]
    · simp [reminderCheckOne, reminderCheckerStep, hn, ht]

/-- The unnotified reminder used to instantiate C4. -/
def c4Reminder : Reminder := ⟨1, "call Bob", 5, "medium", 0, false⟩

/-- Concrete instance of C4: a due, unnotified reminder checked at time 10. -/
theorem C4_reminder_notified_monotone_witness :
    ((reminderCheckOne 10 c4Reminder).notified
        = (c4Reminder.notified || decide (c4Reminder.time ≤ 10))) ∧
    ((reminderCheckOne 10 c4Reminder).notified ≠ c4Reminder.notified →
      c4Reminder.notified = false ∧ (reminderCheckOne 10 c4Reminder).notified = true ∧
      c4Reminder.time ≤ 10) ∧
    ((reminderCheckOne 10 c4Reminder).id = c4Reminder.id ∧
      (reminderCheckOne 10 c4Reminder).title = c4Reminder.title ∧
      (reminderCheckOne 10 c4Reminder).time = c4Reminder.time ∧
      (reminderCheckOne 10 c4Reminder).priority = c4Reminder.priority ∧
      (reminderCheckOne 10 c4Reminder).created_at = c4Reminder.created_at) ∧
    (c4Reminder.notified = true → reminderCheckOne 10 c4Reminder = c4Reminder) ∧
    (∀ now₂, (reminderCheckOne 10 c4Reminder).notified = true →
      reminderCheckOne now₂ (reminderCheckOne 10 c4Reminder) = reminderCheckOne 10 c4Reminder) ∧
    (reminderCheckerStep 10 [c4Reminder] = [reminderCheckOne 10 c4Reminder]) :=
  C4_reminder_notified_monotone 10 c4Reminder

/-- The conflict message f-string of `SchedulerAgent._check_conflicts`
(scheduler_agent.py line 289). -/
def conflictMsg (title : String) : String :=
  "You have \x27" ++ title ++ "\x27 scheduled at that time"

/-- `SchedulerAgent._check_conflicts` (scheduler_agent.py lines 273-290),
with the `event.get('start_time') or event.get('time')` subscript already
resolved to `eventStart` and `event.get('duration', 60)` to
`durationMinutes`: collect the pending tasks whose due time lies in
`[event_start, event_end]` (both bounds inclusive) and report the first, or
return the empty string. -/
def checkConflicts (tasks : List TaskRow) (eventStart durationMinutes : Nat) : String :=
  let eventEnd := eventStart + durationMinutes * usPerMinute
  let conflicts := ((getPendingTasks tasks).filter (fun t =>
      t.due_date.any (fun d => decide (eventStart ≤ d) && decide (d ≤ eventEnd)))).map
      (fun t => t.title)
  match conflicts with
  | [] => ""
  | c :: _ => conflictMsg c

theorem conflictMsg_ne_empty (title : String) : conflictMsg title ≠ "" := by
  intro h
  have hl := congrArg String.length h
  rw [conflictMsg] at hl
  rw [String.length_append, String.length_append] at hl
  have h1 : ("You have \x27" : String).length = 10 := rfl
  have h2 : ("" : String).length = 0 := rfl
  omega

theorem mem_getPendingTasks {t : TaskRow} {tasks : List TaskRow} :
    t ∈ getPendingTasks tasks ↔ t ∈ tasks ∧ t.status = "pending" := by
  simp [getPendingTasks, List.mem_insertionSort, List.mem_filter]

/-- Claim C3: the conflict check reports a conflict iff some pending task's
due time `T` satisfies `event_start ≤ T ≤ event_start + duration`, both
bounds inclusive; in particular a candidate event starting exactly at an
existing task's time conflicts, while one ending one microsecond before it
does not. -/
theorem C3_conflict_check_boundary (tasks : List TaskRow) (eventStart durationMinutes : Nat) :
    (checkConflicts tasks eventStart durationMinutes ≠ "" ↔
      ∃ t ∈ tasks, t.status = "pending" ∧ ∃ d, t.due_date = some d ∧
        eventStart ≤ d ∧ d ≤ eventStart + durationMinutes * usPerMinute) ∧
    (∀ (task : TaskRow) (T dur : Nat), task.status = "pending" → task.due_date = some T →
      checkConflicts [task] T dur ≠ "") ∧
    (∀ (task : TaskRow) (T dur start : Nat), task.status = "pending" → task.due_date = some T →
      start + dur * usPerMinute + 1 = T → checkConflicts [task] start dur = "") := by
  have key : ∀ (ts : List TaskRow) (es dm : Nat),
      checkConflicts ts es dm ≠ "" ↔
        ∃ t ∈ ts, t.status = "pending" ∧ ∃ d, t.due_date = some d ∧
          es ≤ d ∧ d ≤ es + dm * usPerMinute := by
    intro ts es dm
    unfold checkConflicts
    rcases hc : ((getPendingTasks ts).filter (fun t =>
        t.due_date.any (fun d => decide (es ≤ d) && decide (d ≤ es + dm * usPerMinute)))).map
        (fun t => t.title) with _ | ⟨c, rest⟩
    · simp only [hc]
      constructor
      · intro h; exact absurd rfl h
      · rintro ⟨t, hmem, hstat, d, hdue, h1, h2⟩
        exfalso
        have : t ∈ ((getPendingTasks ts).filter (fun t =>
            t.due_date.any (fun d => decide (es ≤ d) && decide (d ≤ es + dm * usPerMinute)))) := by
          rw [List.mem_filter]
          exact ⟨mem_getPendingTasks.2 ⟨hmem, hstat⟩, by simp [hdue, h1, h2]⟩
        have := List.mem_map_of_mem (fun t => t.title) this
        rw [hc] at this
        exact absurd this (List.not_mem_nil _)
    · simp only [hc]
      constructor
      · intro _
        have hcmem : c ∈ ((getPendingTasks ts).filter (fun t =>
            t.due_date.any (fun d => decide (es ≤ d) && decide (d ≤ es + dm * usPerMinute)))).map
            (fun t => t.title) := by rw [hc]; exact List.mem_cons_self c rest
        rw [List.mem_map] at hcmem
        obtain ⟨t, htmem, -⟩ := hcmem
        rw [List.mem_filter] at htmem
        obtain ⟨hpend, hcond⟩ := htmem
        rcases hdd : t.due_date with _ | d
        · rw [hdd] at hcond; simp [Option.any] at hcond
        · rw [hdd] at hcond
          simp only [Option.any, Bool.and_eq_true, decide_eq_true_eq] at hcond
          exact ⟨t, (mem_getPendingTasks.1 hpend).1, (mem_getPendingTasks.1 hpend).2,
            d, hdd, hcond.1, hcond.2⟩
      · intro _; exact conflictMsg_ne_empty c
  refine ⟨key tasks eventStart durationMinutes, ?_, ?_⟩
  · intro task T dur hstat hdue
    refine (key [task] T dur).2 ⟨task, List.mem_singleton_self task, hstat, T, hdue, le_refl T, ?_⟩
    omega
  · intro task T dur start hstat hdue hT
    by_contra hne
    obtain ⟨t, hmem, -, d, hdd, h1, h2⟩ := (key [task] start dur).1 hne
    rw [List.mem_singleton] at hmem
    subst hmem
    rw [hdue] at hdd
    injection hdd with hd
    omega

/-- Concrete instance of C3: one pending task due at time `T = 7200000001`;
an event starting exactly there conflicts, and an event of 120 minutes
ending one microsecond before `T` does not. -/
theorem C3_conflict_check_boundary_witness :
    (checkConflicts [(⟨1, 0, some 7200000001, "standup", none, "pending", 2⟩ : TaskRow)]
        0 120 ≠ "" ↔
      ∃ t ∈ [(⟨1, 0, some 7200000001, "standup", none, "pending", 2⟩ : TaskRow)],
        t.status = "pending" ∧ ∃ d, t.due_date = some d ∧
          0 ≤ d ∧ d ≤ 0 + 120 * usPerMinute) ∧
    (∀ (task : TaskRow) (T dur : Nat), task.status = "pending" → task.due_date = some T →
      checkConflicts [task] T dur ≠ "") ∧
    (∀ (task : TaskRow) (T dur start : Nat), task.status = "pending" → task.due_date = some T →
      start + dur * usPerMinute + 1 = T → checkConflicts [task] start dur = "") :=
  C3_conflict_check_boundary
    [(⟨1, 0, some 7200000001, "standup", none, "pending", 2⟩ : TaskRow)] 0 120

/-- Python `str.lower()` (ASCII range, as exercised by the time keywords). -/
def toLowerStr (s : String) : String := String.mk (s.data.map Char.toLower)

/-- Whether `needle` occurs as a contiguous substring of a character list:
Python's `needle in haystack`. -/
def hasSubstr (needle : List Char) : List Char → Bool
  | [] => needle.isEmpty
  | c :: rest => needle.isPrefixOf (c :: rest) || hasSubstr needle rest

/-- Python `needle in hay` on strings. -/
def strIn (needle hay : String) : Bool := hasSubstr needle.data hay.data

/-- Numeric value of a decimal digit character. -/
def digitVal (c : Char) : Nat := c.toNat - '0'.toNat

/-- The match of the regex `(\d\x7b1,2\x7d):?(\d\x7b0,2\x7d)?\s*(am|pm)?` of
`_parse_natural_time` (scheduler_agent.py line 94) at a position whose first
character `c` is a digit: greedy groups, every later part optional, so no
backtracking can occur.  Returns `(hour, minute, am/pm)` where the am/pm
group is `some true` for `pm`, `some false` for `am`.  An empty minute group
is `int('' or 0) = 0`. -/
def matchTimeAt (c : Char) (rest : List Char) : Nat × Nat × Option Bool :=
  let hr : Nat × List Char :=
    match rest with
    | d :: tl => if d.isDigit then (10 * digitVal c + digitVal d, tl) else (digitVal c, rest)
    | [] => (digitVal c, [])
  let rest2 : List Char :=
    match hr.2 with
    | ':' :: tl => tl
    | _ => hr.2
  let mr : Nat × List Char :=
    match rest2 with
    | d1 :: tl1 =>
      if d1.isDigit then
        match tl1 with
        | d2 :: tl2 => if d2.isDigit then (10 * digitVal d1 + digitVal d2, tl2) else (digitVal d1, tl1)
        | [] => (digitVal d1, [])
      else (0, rest2)
    | [] => (0, rest2)
  let rest4 := mr.2.dropWhile (fun ch => ch.isWhitespace)
  let ampm : Option Bool :=
    match rest4 with
    | 'a' :: 'm' :: _ => some false
    | 'p' :: 'm' :: _ => some true
    | _ => none
  (hr.1, mr.1, ampm)

/-- `re.search` of that pattern: leftmost match, which necessarily starts at
the first digit of the string. -/
def findFirstTime : List Char → Option (Nat × Nat × Option Bool)
  | [] => none
  | c :: rest => if c.isDigit then some (matchTimeAt c rest) else findFirstTime rest

/-- Python `datetime.replace(hour=h, minute=m, second=s)`: keep the date and
the microsecond component, replace the clock fields; `ValueError` when a
field is out of range. -/
def replaceHMS (t hour minute second : Nat) : Except PyError Nat :=
  if hour ≤ 23 ∧ minute ≤ 59 ∧ second ≤ 59 then
    .ok ((t / usPerDay) * usPerDay + hour * usPerHour + minute * usPerMinute
      + second * usPerSecond + t % usPerSecond)
  else .error (.valueError "hour, minute or second out of range")

/-- `SchedulerAgent._parse_natural_time` (scheduler_agent.py lines 72-107):
pick a base date from a relative-day keyword of the lowercased string (or
fall back to `dateutil.parser.parse`, returned as-is on success), then
overlay the first regex-matched clock time onto that base via `replace`.
`dateutilParse` is the external `dateutil` library, an oracle. -/
def parseNaturalTime (dateutilParse : String → Option Nat) (now : Nat)
    (timeStr : String) : Except PyError Nat :=
  let lower := toLowerStr timeStr
  let overlay : Nat → Except PyError Nat := fun base =>
    match findFirstTime lower.data with
    | some (h, m, ap) =>
      let hour :=
        if ap = some true ∧ h < 12 then h + 12
        else if ap = some false ∧ h = 12 then 0
        else h
      replaceHMS base hour m 0
    | none => .ok base
  if strIn "tomorrow" lower then overlay (now + usPerDay)
  else if strIn "today" lower then overlay now
  else if strIn "next week" lower then overlay (now + 7 * usPerDay)
  else if strIn "next month" lower then overlay (now + 30 * usPerDay)
  else
    match dateutilParse timeStr with
    | some t => .ok t
    | none => overlay now

/-- The fields of the parsed `schedule_data` dict that
`SchedulerAgent._add_reminder` reads (`.get` with defaults). -/
structure SchedData where
  title : Option String
  parsed_time : Option Nat
  priority : Option String

/-- The priority table `\x7b'high': 1, 'medium': 2, 'low': 3\x7d[p]` of
`_add_reminder` (scheduler_agent.py line 126): a plain subscript, so an
unknown priority string raises `KeyError`. -/
def priorityNum (p : String) : Except PyError Int :=
  if p = "high" then .ok 1
  else if p = "medium" then .ok 2
  else if p = "low" then .ok 3
  else .error (.keyError p)

/-- Python `str.capitalize()`. -/
def capitalizeStr (s : String) : String :=
  match s.data with
  | [] => ""
  | c :: rest => String.mk (c.toUpper :: rest.map Char.toLower)

/-- `SchedulerAgent._add_reminder` (scheduler_agent.py lines 109-136): build
the reminder with `notified = False`, append it, insert the task row
(`status` defaults to `pending`, `id`/`created_at` are engine-assigned — the
embedding puts `0`/`now`), and return the confirmation text.  `strftime`
is the external `%B %d at %I:%M %p` formatter, an oracle.  On the `KeyError`
path the Python list has already been mutated; the embedding only reports
the error, which no claim inspects further. -/
def addReminder (strftime : Nat → String) (now : Nat) (reminders : List Reminder)
    (data : SchedData) : Except PyError (List Reminder × TaskRow × String) :=
  let r : Reminder :=
    { id := reminders.length + 1
      title := data.title.getD "Reminder"
      time := data.parsed_time.getD (now + usPerHour)
      priority := data.priority.getD "medium"
      created_at := now
      notified := false }
  match priorityNum r.priority with
  | .error e => .error e
  | .ok p =>
    let task : TaskRow :=
      { id := 0, created_at := now, due_date := some r.time, title := r.title,
        description := none, status := "pending", priority := p }
    .ok (reminders ++ [r], task,
      "✅ Reminder set successfully!\n\n📅 **" ++ r.title ++ "**\n⏰ Time: "
        ++ strftime r.time ++ "\n🎯 Priority: " ++ capitalizeStr r.priority
        ++ "\n\nI\x27ll notify you when it\x27s time. Would you like to add any additional details or set another reminder?")

theorem hasSubstr_of_append (needle a b : List Char) :
    hasSubstr needle (a ++ needle ++ b) = true := by
  induction a with
  | nil =>
    cases needle with
    | nil => cases b <;> simp [hasSubstr, List.isPrefixOf]
    | cons c cs =>
      simp only [List.nil_append, hasSubstr, Bool.or_eq_true]
      exact Or.inl ((List.isPrefixOf_iff_prefix).2 (List.prefix_append _ _))
  | cons c a ih =>
    simp only [List.cons_append, hasSubstr, Bool.or_eq_true]
    exact Or.inr ih

theorem strIn_of_split (needle hay pre post : String)
    (h : hay = pre ++ needle ++ post) : strIn needle hay = true := by
  subst h
  unfold strIn
  rw [String.data_append, String.data_append]
  exact hasSubstr_of_append _ _ _

theorem parseNaturalTime_tomorrow3pm (dateutilParse : String → Option Nat) (now : Nat) :
    parseNaturalTime dateutilParse now "tomorrow at 3pm" = replaceHMS (now + usPerDay) 15 0 0 := by
  unfold parseNaturalTime
  simp only [show toLowerStr "tomorrow at 3pm" = "tomorrow at 3pm" from rfl,
    show strIn "tomorrow" "tomorrow at 3pm" = true from rfl,
    show findFirstTime ("tomorrow at 3pm").data = some (3, 0, some true) from rfl,
    if_true]
  norm_num

theorem replaceHMS_3pm (base : Nat) :
    replaceHMS base 15 0 0 = .ok ((base / usPerDay) * usPerDay + 15 * usPerHour + base % usPerSecond) := by
  simp [replaceHMS]

theorem addReminder_call_bob (strftime : Nat → String) (now : Nat)
    (reminders : List Reminder) (pt : Nat) :
    ∃ resp, addReminder strftime now reminders ⟨some "call Bob", some pt, some "medium"⟩
      = .ok (reminders ++ [⟨reminders.length + 1, "call Bob", pt, "medium", now, false⟩],
             ⟨0, now, some pt, "call Bob", none, "pending", 2⟩, resp)
      ∧ strIn "Reminder set" resp = true := by
  refine ⟨_, rfl, ?_⟩
  have hlit : (("✅ " ++ "Reminder set") ++ " successfully!\n\n📅 **" : String)
      = "✅ Reminder set successfully!\n\n📅 **" := rfl
  apply strIn_of_split _ _ "✅ "
    (" successfully!\n\n📅 **" ++ "call Bob" ++ "**\n⏰ Time: " ++ strftime pt
      ++ "\n🎯 Priority: " ++ capitalizeStr "medium"
      ++ "\n\nI\x27ll notify you when it\x27s time. Would you like to add any additional details or set another reminder?")
  simp only [Option.getD_some, ← String.append_assoc]
  rw [hlit]

/-- Claim C6 (amended): for `tomorrow at 3pm` the parser takes tomorrow as the
base date and overlays 15:00 with the seconds zeroed, but — like
`datetime.replace(hour=..., minute=..., second=0)` — keeps the microsecond
component of the current clock reading instead of zeroing it; the reminder
built from the parsed time has `notified = False` and its confirmation text
contains `Reminder set`. -/
theorem C6_tomorrow_3pm_reminder (dateutilParse : String → Option Nat)
    (strftime : Nat → String) (now : Nat) (reminders : List Reminder) :
    parseNaturalTime dateutilParse now "tomorrow at 3pm"
      = .ok (((now + usPerDay) / usPerDay) * usPerDay + 15 * usPerHour + now % usPerSecond) ∧
    (((now + usPerDay) / usPerDay) * usPerDay + 15 * usPerHour + now % usPerSecond) / usPerDay
      = (now + usPerDay) / usPerDay ∧
    (((now + usPerDay) / usPerDay) * usPerDay + 15 * usPerHour + now % usPerSecond) / usPerHour % 24
      = 15 ∧
    (((now + usPerDay) / usPerDay) * usPerDay + 15 * usPerHour + now % usPerSecond) / usPerMinute % 60
      = 0 ∧
    (((now + usPerDay) / usPerDay) * usPerDay + 15 * usPerHour + now % usPerSecond) / usPerSecond % 60
      = 0 ∧
    (((now + usPerDay) / usPerDay) * usPerDay + 15 * usPerHour + now % usPerSecond) % usPerSecond
      = now % usPerSecond ∧
    (∀ pt, ∃ resp,
      addReminder strftime now reminders ⟨some "call Bob", some pt, some "medium"⟩
        = .ok (reminders ++ [⟨reminders.length + 1, "call Bob", pt, "medium", now, false⟩],
               ⟨0, now, some pt, "call Bob", none, "pending", 2⟩, resp)
      ∧ (⟨reminders.length + 1, "call Bob", pt, "medium", now, false⟩ : Reminder).notified = false
      ∧ strIn "Reminder set" resp = true) := by
  have hmod : (now + usPerDay) % usPerSecond = now % usPerSecond := by
    simp only [usPerDay, usPerHour, usPerMinute, usPerSecond]
    omega
  refine ⟨?_, ?_, ?_, ?_, ?_, ?_, ?_⟩
  · rw [parseNaturalTime_tomorrow3pm, replaceHMS_3pm, hmod]
  · have h2 : now % usPerSecond < usPerSecond := Nat.mod_lt _ (by simp [usPerSecond])
    generalize now % usPerSecond = m at h2 ⊢
    generalize (now + usPerDay) / usPerDay = q
    simp only [usPerDay, usPerHour, usPerMinute, usPerSecond] at h2 ⊢
    omega
  · have h2 : now % usPerSecond < usPerSecond := Nat.mod_lt _ (by simp [usPerSecond])
    generalize now % usPerSecond = m at h2 ⊢
    generalize (now + usPerDay) / usPerDay = q
    simp only [usPerDay, usPerHour, usPerMinute, usPerSecond] at h2 ⊢
    omega
  · have h2 : now % usPerSecond < usPerSecond := Nat.mod_lt _ (by simp [usPerSecond])
    generalize now % usPerSecond = m at h2 ⊢
    generalize (now + usPerDay) / usPerDay = q
    simp only [usPerDay, usPerHour, usPerMinute, usPerSecond] at h2 ⊢
    omega
  · have h2 : now % usPerSecond < usPerSecond := Nat.mod_lt _ (by simp [usPerSecond])
    generalize now % usPerSecond = m at h2 ⊢
    generalize (now + usPerDay) / usPerDay = q
    simp only [usPerDay, usPerHour, usPerMinute, usPerSecond] at h2 ⊢
    omega
  · have h2 : now % usPerSecond < usPerSecond := Nat.mod_lt _ (by simp [usPerSecond])
    generalize now % usPerSecond = m at h2 ⊢
    generalize (now + usPerDay) / usPerDay = q
    simp only [usPerDay, usPerHour, usPerMinute, usPerSecond] at h2 ⊢
    omega
  · intro pt
    obtain ⟨resp, h1, h2⟩ := addReminder_call_bob strftime now reminders pt
    exact ⟨resp, h1, rfl, h2⟩

/-- Counterexample to C6 as frozen: with the current time one microsecond
after midnight of day 0, `tomorrow at 3pm` parses to tomorrow at
15:00:00.000001, not exactly 15:00:00 — `replace` does not reset the
microsecond field. -/
theorem C6_counterexample_microsecond_kept :
    parseNaturalTime (fun _ => none) 1 "tomorrow at 3pm"
      = .ok (usPerDay + 15 * usPerHour + 1) ∧
    usPerDay + 15 * usPerHour + 1 ≠ usPerDay + 15 * usPerHour ∧
    (usPerDay + 15 * usPerHour + 1) % usPerSecond ≠ 0 := by
  refine ⟨rfl, by decide, by decide⟩

/-- The `TriggerType` enum of automation_agent.py. -/
inductive TrigType where
  | time
  | event
  | condition
  | iot
  deriving DecidableEq

/-- Values stored in the automation agent's workflow dicts. -/
inductive AVal where
  | s (v : String)
  | n (v : Nat)
  | b (v : Bool)
  | none
  | tt (t : TrigType)
  | list (elems : List AVal)
  | dict (fields : List (String × AVal))

/-- A Python dict with string keys, in insertion order. -/
abbrev PyDict := List (String × AVal)

/-- Python `d.get(k)` / key lookup. -/
def dget : PyDict → String → Option AVal
  | [], _ => Option.none
  | (k', v) :: rest, k => if k' = k then some v else dget rest k

/-- Python `d.get(k, default)`. -/
def dgetD (d : PyDict) (k : String) (dflt : AVal) : AVal := (dget d k).getD dflt

/-- Python `d[k] = v`: replace in place when the key exists, append
otherwise. -/
def dset : PyDict → String → AVal → PyDict
  | [], k, v => [(k, v)]
  | (k', v') :: rest, k, v =>
    if k' = k then (k, v) :: rest else (k', v') :: dset rest k v

/-- Python `k in d`. -/
def hasKey (d : PyDict) (k : String) : Bool := (dget d k).isSome

/-- Python `x == "lit"` where `x` may be any value: cross-type equality with
a string is `False`. -/
def avalEqStr : AVal → String → Bool
  | .s v, t => v == t
  | _, _ => false

/-- `AutomationAgent._parse_trigger` (automation_agent.py lines 104-127). -/
def parseTrigger (tc : PyDict) : PyDict :=
  let ttype := dgetD tc "type" (.s "manual")
  if avalEqStr ttype "time" then
    [("type", .tt .time), ("schedule", dgetD tc "schedule" (.s "0 9 * * *")),
     ("timezone", dgetD tc "timezone" (.s "local"))]
  else if avalEqStr ttype "event" then
    [("type", .tt .event), ("event_name", dgetD tc "event_name" AVal.none),
     ("source", dgetD tc "source" AVal.none)]
  else if avalEqStr ttype "iot" then
    [("type", .tt .iot), ("device_id", dgetD tc "device_id" AVal.none),
     ("condition", dgetD tc "condition" AVal.none)]
  else [("type", .tt .event), ("event_name", .s "manual")]

/-- `config.get('trigger', \x7b\x7d)` feeding `_parse_trigger`: the claims only
exercise dict-valued trigger configs; a non-dict value (which would raise
inside `_parse_trigger`) is treated as the empty config here. -/
def parseTriggerVal : AVal → PyDict
  | .dict fields => parseTrigger fields
  | _ => parseTrigger []

/-- The f-string id `f"workflow_\x7blen(self.workflows)\x7d"` of
`_create_workflow` (automation_agent.py line 76). -/
def mkWorkflowId (count : Nat) : String := "workflow_" ++ Nat.repr count

/-- The f-string id `f"auto_\x7blen(self.workflows)\x7d"` of
`_create_automation_rule` (automation_agent.py line 165). -/
def mkAutoId (count : Nat) : String := "auto_" ++ Nat.repr count

/-- `AutomationAgent._create_workflow` (automation_agent.py lines 74-102):
the workflow dict literal, fields in source order; `count` is
`len(self.workflows)` and `nowIso` is `datetime.now().isoformat()`.  The
confirmation text and the `_register_trigger` side table are presentation /
unclaimed and not modeled. -/
def createWorkflow (count : Nat) (nowIso : String) (config : PyDict) : String × PyDict :=
  let wid := mkWorkflowId count
  (wid,
   [("id", .s wid),
    ("name", dgetD config "workflow_name" (.s "Unnamed Workflow")),
    ("description", dgetD config "description" (.s "")),
    ("trigger", .dict (parseTriggerVal (dgetD config "trigger" (.dict [])))),
    ("conditions", dgetD config "conditions" (.list [])),
    ("actions", dgetD config "actions" (.list [])),
    ("created_at", .s nowIso),
    ("enabled", .b true),
    ("last_run", AVal.none),
    ("run_count", .n 0)])

/-- `AutomationAgent._create_automation_rule` (automation_agent.py lines
149-190): the workflow dict converted from the rule, fields in source order —
note it carries no `description`, `conditions`, `last_run` or `run_count`
key.  `ruleText` is the model-generated rule text (used only in the response);
the slice `automation['if_condition'][:30]` raises `TypeError` when
`if_condition` is not a string. -/
def createAutomationRule (count : Nat) (nowIso ruleText : String) (config : PyDict) :
    Except PyError (String × PyDict × String) :=
  match dgetD config "if_condition" AVal.none with
  | .s cond =>
    .ok (mkAutoId count,
      [("id", .s (mkAutoId count)),
       ("name", .s ("Automation: " ++ String.mk (cond.data.take 30) ++ "...")),
       ("trigger", .dict [("type", .tt .condition), ("condition", .s cond)]),
       ("actions", .list [dgetD config "then_action" AVal.none]),
       ("created_at", .s nowIso),
       ("enabled", .b true)],
      "🤖 **Automation Rule Created**\n\n" ++ ruleText
        ++ "\n\nThis automation is now active and monitoring for the specified conditions.\nI\x27ll notify you whenever it triggers. Always one call away! ✨")
  | _ => .error (.typeError "value is not subscriptable")

/-- `AutomationAgent._check_and_run_workflow` (automation_agent.py lines
353-361): set `last_run`, then `run_count += 1` (a read that raises
`KeyError` when the key is absent), then run each action through the no-op
`_execute_workflow_action`.  Returns the dict as mutated so far, paired with
the exception if one was raised. -/
def checkAndRunWorkflow (wf : PyDict) (nowIso : String) : PyDict × Option PyError :=
  let wf1 := dset wf "last_run" (.s nowIso)
  match dget wf1 "run_count" with
  | some (.n k) =>
    let wf2 := dset wf1 "run_count" (.n (k + 1))
    match dget wf2 "actions" with
    | some (.list _) => (wf2, Option.none)
    | some (.s _) => (wf2, Option.none)
    | some (.dict _) => (wf2, Option.none)
    | some _ => (wf2, some (.typeError "object is not iterable"))
    | Option.none => (wf2, some (.keyError "actions"))
  | some _ => (wf1, some (.typeError "unsupported operand type for +="))
  | Option.none => (wf1, some (.keyError "run_count"))

theorem dget_dset_self (d : PyDict) (k : String) (v : AVal) :
    dget (dset d k v) k = some v := by
  induction d with
  | nil => simp [dset, dget]
  | cons hd rest ih =>
    obtain ⟨k', v'⟩ := hd
    by_cases hk : k' = k
    · simp [dset, hk, dget]
    · simp [dset, hk, dget, ih]

theorem dget_dset_ne (d : PyDict) (k k₂ : String) (v : AVal) (h : k₂ ≠ k) :
    dget (dset d k v) k₂ = dget d k₂ := by
  induction d with
  | nil =>
    have hne : ¬k = k₂ := fun hh => h hh.symm
    simp [dset, dget, hne]
  | cons hd rest ih =>
    obtain ⟨k', v'⟩ := hd
    by_cases hk : k' = k
    · subst hk
      have : k' ≠ k₂ := fun hh => h hh.symm
      simp [dset, dget, this]
    · simp only [dset, if_neg hk]
      by_cases hk2 : k' = k₂
      · simp [dget, hk2]
      · simp [dget, hk2, ih]
/-- Decimal digits of a natural number, most significant first. -/
def digitsRec (n : Nat) : List Char :=
  if n < 10 then [Nat.digitChar n]
  else digitsRec (n / 10) ++ [Nat.digitChar (n % 10)]
decreasing_by exact Nat.div_lt_self (by omega) (by omega)

/-- Numeric value of a decimal digit character. -/
def dVal (c : Char) : Nat := c.toNat - 48

/-- Value of a digit string read left to right. -/
def digitsVal (l : List Char) : Nat := l.foldl (fun a c => 10 * a + dVal c) 0

theorem dVal_digitChar {n : Nat} (h : n < 10) : dVal (Nat.digitChar n) = n := by
  interval_cases n <;> rfl

theorem digitsVal_append_one (xs : List Char) (c : Char) :
    digitsVal (xs ++ [c]) = 10 * digitsVal xs + dVal c := by
  simp [digitsVal, List.foldl_append]

theorem digitsVal_digitsRec (n : Nat) : digitsVal (digitsRec n) = n := by
  induction n using Nat.strong_induction_on with
  | _ n ih =>
    rw [digitsRec]
    by_cases h : n < 10
    · simp only [if_pos h]
      simp [digitsVal, dVal_digitChar h]
    · simp only [if_neg h]
      rw [digitsVal_append_one, ih (n / 10) (Nat.div_lt_self (by omega) (by omega)),
        dVal_digitChar (Nat.mod_lt _ (by omega))]
      omega

theorem digitsRec_injective {m n : Nat} (h : digitsRec m = digitsRec n) : m = n := by
  have := congrArg digitsVal h
  rwa [digitsVal_digitsRec, digitsVal_digitsRec] at this

theorem toDigitsCore_eq_digitsRec :
    ∀ (fuel n : Nat) (ds : List Char), n < 10 ^ fuel → 0 < fuel →
      Nat.toDigitsCore 10 fuel n ds = digitsRec n ++ ds := by
  intro fuel
  induction fuel with
  | zero => intro n ds _ h0; omega
  | succ f ih =>
    intro n ds h _
    rw [Nat.toDigitsCore]
    by_cases hn : n / 10 = 0
    · simp only [hn, if_pos rfl]
      have hlt : n < 10 := by omega
      rw [digitsRec]
      simp [hlt, Nat.mod_eq_of_lt hlt]
    · simp only [if_neg hn]
      have h1 : n / 10 < 10 ^ f := by
        rw [Nat.div_lt_iff_lt_mul (by norm_num : (0:Nat) < 10)]
        calc n < 10 ^ (f + 1) := h
          _ = 10 ^ f * 10 := pow_succ 10 f
      have h0f : 0 < f := by
        rcases Nat.eq_zero_or_pos f with hf | hf
        · subst hf; simp at h1; omega
        · exact hf
      rw [ih (n / 10) (Nat.digitChar (n % 10) :: ds) h1 h0f]
      conv_rhs => rw [digitsRec]
      have h10 : ¬ n < 10 := by omega
      simp [h10]

theorem Nat_repr_injective : Function.Injective Nat.repr := by
  intro m n h
  unfold Nat.repr Nat.toDigits at h
  have hm : m < 10 ^ (m + 1) :=
    lt_of_lt_of_le (Nat.lt_two_pow m)
      (le_trans (Nat.pow_le_pow_left (by omega) m) (Nat.pow_le_pow_right (by omega) (by omega)))
  have hn : n < 10 ^ (n + 1) :=
    lt_of_lt_of_le (Nat.lt_two_pow n)
      (le_trans (Nat.pow_le_pow_left (by omega) n) (Nat.pow_le_pow_right (by omega) (by omega)))
  rw [toDigitsCore_eq_digitsRec (m + 1) m [] hm (by omega),
    toDigitsCore_eq_digitsRec (n + 1) n [] hn (by omega)] at h
  simp only [List.append_nil] at h
  have hdata := congrArg String.data h
  simp only [List.asString] at hdata
  exact digitsRec_injective hdata

theorem mkWorkflowId_inj {i j : Nat} (h : mkWorkflowId i = mkWorkflowId j) : i = j := by
  apply Nat_repr_injective
  have hd := congrArg String.data h
  rw [mkWorkflowId, mkWorkflowId, String.data_append, String.data_append] at hd
  exact String.ext (List.append_cancel_left hd)

theorem mkWorkflowId_ne_mkAutoId (i j : Nat) : mkWorkflowId i ≠ mkAutoId j := by
  intro h
  have hd := congrArg String.data h
  rw [mkWorkflowId, mkAutoId, String.data_append, String.data_append] at hd
  rw [show ("workflow_" : String).data = 'w' :: "orkflow_".data from rfl,
    show ("auto_" : String).data = 'a' :: "uto_".data from rfl] at hd
  simp only [List.cons_append] at hd
  injection hd with h1 _
  exact absurd h1 (by decide)

/-- Claim C7 (amended): for every workflow dict that carries the `run_count`
field (as every workflow built by `_create_workflow` does),
`_check_and_run_workflow` raises nothing, increments `run_count` by exactly
1, sets `last_run` to the invocation time, and leaves every other field
unchanged, regardless of how many actions the workflow holds (0 or more);
workflows placed in the registry by `_create_automation_rule` lack
`run_count`, so on them the same path raises `KeyError` instead (see the
counterexample). -/
theorem C7_check_and_run_workflow (wf : PyDict) (nowIso : String) (k : Nat) (acts : List AVal)
    (hrc : dget wf "run_count" = some (.n k))
    (hact : dget wf "actions" = some (.list acts)) :
    checkAndRunWorkflow wf nowIso
      = (dset (dset wf "last_run" (.s nowIso)) "run_count" (.n (k + 1)), Option.none) ∧
    (checkAndRunWorkflow wf nowIso).2 = Option.none ∧
    dget (checkAndRunWorkflow wf nowIso).1 "run_count" = some (.n (k + 1)) ∧
    dget (checkAndRunWorkflow wf nowIso).1 "last_run" = some (.s nowIso) ∧
    (∀ key, key ≠ "run_count" → key ≠ "last_run" →
      dget (checkAndRunWorkflow wf nowIso).1 key = dget wf key) := by
  have h1 : dget (dset wf "last_run" (.s nowIso)) "run_count" = some (AVal.n k) := by
    rw [dget_dset_ne _ _ _ _ (by decide)]; exact hrc
  have h2 : dget (dset (dset wf "last_run" (.s nowIso)) "run_count" (.n (k + 1))) "actions"
      = some (AVal.list acts) := by
    rw [dget_dset_ne _ _ _ _ (by decide), dget_dset_ne _ _ _ _ (by decide)]; exact hact
  have heq : checkAndRunWorkflow wf nowIso
      = (dset (dset wf "last_run" (.s nowIso)) "run_count" (.n (k + 1)), Option.none) := by
    unfold checkAndRunWorkflow
    simp only [h1, h2]
  refine ⟨heq, by rw [heq], ?_, ?_, ?_⟩
  · rw [heq]
    exact dget_dset_self _ _ _
  · rw [heq]
    show dget (dset (dset wf "last_run" (AVal.s nowIso)) "run_count" (AVal.n (k + 1))) "last_run"
      = some (AVal.s nowIso)
    rw [dget_dset_ne _ _ _ _ (by decide)]
    exact dget_dset_self _ _ _
  · intro key hk1 hk2
    rw [heq]
    show dget (dset (dset wf "last_run" (AVal.s nowIso)) "run_count" (AVal.n (k + 1))) key
      = dget wf key
    rw [dget_dset_ne _ _ _ _ hk1, dget_dset_ne _ _ _ _ hk2]

/-- Concrete instance of C7: the freshly created empty workflow
(`run_count = 0`, no actions) is run once. -/
theorem C7_check_and_run_workflow_witness :
    dget (createWorkflow 0 "2025-01-01T09:00:00" []).2 "run_count" = some (AVal.n 0) ∧
    dget (createWorkflow 0 "2025-01-01T09:00:00" []).2 "actions" = some (AVal.list []) ∧
    (checkAndRunWorkflow (createWorkflow 0 "2025-01-01T09:00:00" []).2 "2025-01-02T09:00:00"
        = (dset (dset (createWorkflow 0 "2025-01-01T09:00:00" []).2 "last_run"
            (.s "2025-01-02T09:00:00")) "run_count" (.n (0 + 1)), Option.none) ∧
      (checkAndRunWorkflow (createWorkflow 0 "2025-01-01T09:00:00" []).2 "2025-01-02T09:00:00").2
        = Option.none ∧
      dget (checkAndRunWorkflow (createWorkflow 0 "2025-01-01T09:00:00" []).2
          "2025-01-02T09:00:00").1 "run_count" = some (.n (0 + 1)) ∧
      dget (checkAndRunWorkflow (createWorkflow 0 "2025-01-01T09:00:00" []).2
          "2025-01-02T09:00:00").1 "last_run" = some (.s "2025-01-02T09:00:00") ∧
      (∀ key, key ≠ "run_count" → key ≠ "last_run" →
        dget (checkAndRunWorkflow (createWorkflow 0 "2025-01-01T09:00:00" []).2
            "2025-01-02T09:00:00").1 key
          = dget (createWorkflow 0 "2025-01-01T09:00:00" []).2 key)) :=
  ⟨rfl, rfl, C7_check_and_run_workflow _ _ 0 [] rfl rfl⟩

/-- The workflow dict that `_create_automation_rule` inserts into the
registry for the rule `IF motion detected THEN turn on lights` at count 0. -/
def ruleWorkflow0 : PyDict :=
  [("id", .s "auto_0"),
   ("name", .s "Automation: motion detected..."),
   ("trigger", .dict [("type", .tt .condition), ("condition", .s "motion detected")]),
   ("actions", .list [.s "turn on lights"]),
   ("created_at", .s "2025-01-01T00:00:00"),
   ("enabled", .b true)]

/-- Counterexample to C7 as frozen: a workflow that `_create_automation_rule`
placed in the registry has no `run_count` key, so the scheduled-execution
path raises `KeyError('run_count')` on it instead of incrementing. -/
theorem C7_counterexample_rule_workflow_keyerror :
    createAutomationRule 0 "2025-01-01T00:00:00" "IF motion THEN lights"
        [("if_condition", AVal.s "motion detected"), ("then_action", AVal.s "turn on lights")]
      = .ok ("auto_0", ruleWorkflow0,
          "🤖 **Automation Rule Created**\n\nIF motion THEN lights\n\nThis automation is now active and monitoring for the specified conditions.\nI\x27ll notify you whenever it triggers. Always one call away! ✨") ∧
    (checkAndRunWorkflow ruleWorkflow0 "2025-01-02T09:00:00").2
      = some (PyError.keyError "run_count") := by
  exact ⟨rfl, rfl⟩

/-- Claim C8 (amended): every workflow built by `_create_workflow` has all
ten fields of the Workflow data model, with the id fresh for the registry
(`workflow_` / `auto_` ids with indices below the current size),
`enabled = true`, `run_count = 0` and `last_run = None` at creation; a
workflow placed in the registry by `_create_automation_rule` instead carries
only `id`, `name`, `trigger`, `actions`, `created_at` and `enabled = true`,
lacking `description`, `conditions`, `last_run` and `run_count` (see the
counterexample). -/
theorem C8_create_workflow_fields (count : Nat) (nowIso : String) (config : PyDict)
    (registryKeys : List String)
    (hkeys : ∀ s ∈ registryKeys, ∃ j, j < count ∧ (s = mkWorkflowId j ∨ s = mkAutoId j)) :
    dget (createWorkflow count nowIso config).2 "id" = some (.s (mkWorkflowId count)) ∧
    mkWorkflowId count ∉ registryKeys ∧
    hasKey (createWorkflow count nowIso config).2 "name" = true ∧
    hasKey (createWorkflow count nowIso config).2 "description" = true ∧
    hasKey (createWorkflow count nowIso config).2 "trigger" = true ∧
    hasKey (createWorkflow count nowIso config).2 "conditions" = true ∧
    hasKey (createWorkflow count nowIso config).2 "actions" = true ∧
    hasKey (createWorkflow count nowIso config).2 "created_at" = true ∧
    dget (createWorkflow count nowIso config).2 "enabled" = some (.b true) ∧
    dget (createWorkflow count nowIso config).2 "run_count" = some (.n 0) ∧
    dget (createWorkflow count nowIso config).2 "last_run" = some AVal.none := by
  refine ⟨rfl, ?_, rfl, rfl, rfl, rfl, rfl, rfl, rfl, rfl, rfl⟩
  intro hmem
  obtain ⟨j, hj, hc | hc⟩ := hkeys _ hmem
  · exact absurd (mkWorkflowId_inj hc) (by omega)
  · exact mkWorkflowId_ne_mkAutoId count j hc

/-- Concrete instance of C8: creating a workflow over a registry holding one
`_create_workflow` id and one `_create_automation_rule` id. -/
theorem C8_create_workflow_fields_witness :
    (∀ s ∈ [mkWorkflowId 0, mkAutoId 1], ∃ j, j < 2 ∧ (s = mkWorkflowId j ∨ s = mkAutoId j)) ∧
    (dget (createWorkflow 2 "2025-01-01T09:00:00" []).2 "id"
        = some (.s (mkWorkflowId 2)) ∧
      mkWorkflowId 2 ∉ [mkWorkflowId 0, mkAutoId 1] ∧
      hasKey (createWorkflow 2 "2025-01-01T09:00:00" []).2 "name" = true ∧
      hasKey (createWorkflow 2 "2025-01-01T09:00:00" []).2 "description" = true ∧
      hasKey (createWorkflow 2 "2025-01-01T09:00:00" []).2 "trigger" = true ∧
      hasKey (createWorkflow 2 "2025-01-01T09:00:00" []).2 "conditions" = true ∧
      hasKey (createWorkflow 2 "2025-01-01T09:00:00" []).2 "actions" = true ∧
      hasKey (createWorkflow 2 "2025-01-01T09:00:00" []).2 "created_at" = true ∧
      dget (createWorkflow 2 "2025-01-01T09:00:00" []).2 "enabled" = some (.b true) ∧
      dget (createWorkflow 2 "2025-01-01T09:00:00" []).2 "run_count" = some (.n 0) ∧
      dget (createWorkflow 2 "2025-01-01T09:00:00" []).2 "last_run" = some AVal.none) := by
  have hkeys : ∀ s ∈ [mkWorkflowId 0, mkAutoId 1],
      ∃ j, j < 2 ∧ (s = mkWorkflowId j ∨ s = mkAutoId j) := by
    intro s hs
    rcases List.mem_cons.1 hs with h | hs2
    · exact ⟨0, by omega, Or.inl h⟩
    · rcases List.mem_cons.1 hs2 with h | hs3
      · exact ⟨1, by omega, Or.inr h⟩
      · exact absurd hs3 (List.not_mem_nil s)
  exact ⟨hkeys, C8_create_workflow_fields 2 "2025-01-01T09:00:00" [] _ hkeys⟩

/-- Counterexample to C8 as frozen: the workflow inserted by
`_create_automation_rule` lacks the `description`, `conditions`, `last_run`
and `run_count` fields of the Workflow data model. -/
theorem C8_counterexample_rule_workflow_missing_fields :
    createAutomationRule 0 "2025-01-01T00:00:00" "IF motion THEN lights"
        [("if_condition", AVal.s "motion detected"), ("then_action", AVal.s "turn on lights")]
      = .ok ("auto_0", ruleWorkflow0,
          "🤖 **Automation Rule Created**\n\nIF motion THEN lights\n\nThis automation is now active and monitoring for the specified conditions.\nI\x27ll notify you whenever it triggers. Always one call away! ✨") ∧
    hasKey ruleWorkflow0 "run_count" = false ∧
    hasKey ruleWorkflow0 "last_run" = false ∧
    hasKey ruleWorkflow0 "description" = false ∧
    hasKey ruleWorkflow0 "conditions" = false ∧
    dget ruleWorkflow0 "enabled" = some (.b true) := by
  exact ⟨rfl, rfl, rfl, rfl, rfl, rfl⟩

/-- Concrete instance of C9: an upsert over a one-row table, read back. -/
theorem C9_preference_last_write_wins_witness :
    getPreference (updatePreference [("a", Json.num 1)] "b" (Json.str "x")) "b"
      = some (Json.str "x") ∧
    (∀ k₂, k₂ ∉ ([("a", Json.num 1)] : Prefs).map Prod.fst →
      getPreference [("a", Json.num 1)] k₂ = none) :=
  C9_preference_last_write_wins [("a", Json.num 1)] "b" (Json.str "x")
